import Mathlib

/-!
Shallow embedding of the edit-logger extension (`src/extension.ts`) and proofs
about its log store, file-part rotation, execution tracking and event handling.

Host-provided inputs (timestamps, the active cursor position, file sizes from
`fs.statSync`, write outcomes of `fs.writeFile`, process exit codes) are passed
as explicit parameters; all in-memory state of the `Logger` class is the
`LoggerState` structure, and side effects (timer arming, process kills, file
writes, caught errors) are returned as an explicit `Effect` list.
-/

set_option autoImplicit false

namespace EditLogger

/-! ### JavaScript / Node.js string and path primitives -/

/-- Bool test that `pre` is a leading segment of `l` (on character lists). -/
def leadsList : List Char → List Char → Bool
  | [], _ => true
  | _ :: _, [] => false
  | a :: as, b :: bs => a == b && leadsList as bs

/-- Bool test that `needle` occurs contiguously inside the second list. -/
def withinList (needle : List Char) : List Char → Bool
  | [] => leadsList needle []
  | b :: bs => leadsList needle (b :: bs) || withinList needle bs

/-- JavaScript `hay.includes(needle)`. -/
def strIncludes (hay needle : String) : Bool :=
  withinList needle.toList hay.toList

/-- JavaScript `s.endsWith(suffix)`. -/
def strEndsWith (s suffix : String) : Bool :=
  leadsList suffix.toList.reverse s.toList.reverse

/-- Split a character list at the last occurrence of `c`: the parts strictly
before and strictly after that occurrence, or `none` when `c` is absent. -/
def splitAtLast (c : Char) : List Char → Option (List Char × List Char)
  | [] => none
  | x :: xs =>
    match splitAtLast c xs with
    | some (before, after) => some (x :: before, after)
    | none => if x == c then some ([], xs) else none

/-- Node `path.dirname` on the POSIX-style paths the extension builds. -/
def dirname (p : String) : String :=
  match splitAtLast '/' p.toList with
  | some (d, _) => String.mk d
  | none => "."

/-- Node `path.basename(p)`. -/
def pathBasename (p : String) : String :=
  match splitAtLast '/' p.toList with
  | some (_, b) => String.mk b
  | none => p

/-- Node `path.extname(p)`: from the last `.` of the basename to the end,
empty when the basename has no dot or starts with its only dot. -/
def extname (p : String) : String :=
  let b := pathBasename p
  match splitAtLast '.' b.toList with
  | some (before, after) => if before.isEmpty then "" else String.mk ('.' :: after)
  | none => ""

/-- Remove the final `n` characters of `s`. -/
def dropLastChars (s : String) (n : Nat) : String :=
  String.mk (s.toList.take (s.toList.length - n))

/-- Node `path.basename(p, ext)`: the basename with a trailing `ext` removed. -/
def pathBasenameExt (p ext : String) : String :=
  let b := pathBasename p
  if (ext != "") && strEndsWith b ext then dropLastChars b ext.length else b

/-- Node `path.join(a, b)` on the already-normalized inputs the logger uses. -/
def pathJoin (a b : String) : String := a ++ "/" ++ b

/-- Helper of `jsSplitNl`: `acc` holds the current (reversed) segment. -/
def splitNlAux : List Char → List Char → List String
  | [], acc => [String.mk acc.reverse]
  | x :: xs, acc =>
    if x == '\n' then String.mk acc.reverse :: splitNlAux xs []
    else splitNlAux xs (x :: acc)

/-- JavaScript `s.split('\n')`. -/
def jsSplitNl (s : String) : List String := splitNlAux s.toList []

/-- JavaScript `lines.join('\n')`. -/
def joinNl : List String → String
  | [] => ""
  | [x] => x
  | x :: y :: xs => x ++ "\n" ++ joinNl (y :: xs)

/-- JavaScript `a || b` with a string `a` and an optional (`undefined`-able)
`b`: the empty string is falsy. -/
def jsOrSO (a : String) (b : Option String) : Option String :=
  if a = "" then b else some a

/-- JavaScript `a || b` on plain strings (the empty string is falsy). -/
def jsOr (a b : String) : String := if a = "" then b else a

/-- JavaScript truthiness of an optional string. -/
def strTruthy : Option String → Bool
  | none => false
  | some s => s != ""

/-! ### Data model (the interfaces and `Logger` fields of `extension.ts`) -/

/-- A line/character position (`vscode.Position`). -/
structure Pos where
  line : Nat
  character : Nat
  deriving DecidableEq

/-- A source range; `stop` embeds the source's `end` field. -/
structure Range where
  start : Pos
  stop : Pos
  deriving DecidableEq

/-- One element of `Logger.editLog`: either an `EditLogEntry` built by
`logEdit` or a `KeyLogEntry` built by `logKeyInput` (the TypeScript list mixes
both shapes). -/
inductive EditLogEntry where
  | edit (timestamp : String) (range : Range) (text : String)
      (operation : String) (lineContent : String)
  | key (timestamp : String) (key : String) (position : Pos) (lineContent : String)
  deriving DecidableEq

/-- `ErrorLogEntry` of the source; optional fields are `Option`. -/
structure ErrorLogEntry where
  timestamp : String
  message : String
  stack : Option String
  code : Option String := none
  event : Option String := none
  language : Option String := none
  deriving DecidableEq

/-- `ExecutionLogEntry` of the source; fields absent on `execution_start`
records are `none`. -/
structure ExecutionLogEntry where
  timestamp : String
  event : String
  file : String
  language : String
  output : Option String := none
  error : Option String := none
  exitCode : Option Int := none
  duration : Option Nat := none
  deriving DecidableEq

/-- `Logger.currentExecution` when non-null; `hasProcess` models whether the
optional `process` handle is set. -/
structure CurrentExecution where
  startTime : Nat
  file : String
  hasProcess : Bool
  output : String
  error : String
  deriving DecidableEq

/-- The mutable fields of the `Logger` class (the debounce timer handle is
modelled by the emitted `Effect.scheduleSave`, not stored). -/
structure LoggerState where
  logFolder : String
  sessionId : String
  studentId : String
  currentDocument : String
  logFile : String
  editLog : List EditLogEntry
  errorLog : List ErrorLogEntry
  executionLog : List ExecutionLogEntry
  isSaving : Bool
  currentExecution : Option CurrentExecution
  deriving DecidableEq

/-- The object `saveLog` serializes (`JSON.stringify(logData, null, 2)`);
kept structured, since the JSON encoding is injective on it. -/
structure LogData where
  studentId : String
  sessionId : String
  fileName : String
  editLog : List EditLogEntry
  errorLog : List ErrorLogEntry
  executionLog : List ExecutionLogEntry
  deriving DecidableEq

/-- Side effects the logger requests from the host. -/
inductive Effect where
  /-- `scheduleSave()` armed/reset the 1000 ms debounce timer. -/
  | scheduleSave
  /-- `process.kill()` on the superseded execution. -/
  | killProcess
  /-- `fs.writeFile(path, serialized data)` that succeeds. -/
  | wrote (path : String) (data : LogData)
  /-- `fs.writeFile` whose callback received an error (logged to console). -/
  | writeFailed (path : String) (errMsg : String)
  /-- a synchronous exception inside `saveLog`'s `try`, caught and logged. -/
  | caughtError
  deriving DecidableEq

/-- The parts of a `vscode.TextDocument` the logger reads; `lineAt n` is
`document.lineAt(n).text`. -/
structure Document where
  fileName : String
  scheme : String
  languageId : String
  lineAt : Nat → String

/-- A `vscode.TextDocumentContentChangeEvent`. -/
structure ContentChange where
  range : Range
  rangeLength : Nat
  text : String
  deriving DecidableEq

/-- Host filesystem and write-outcome environment of one `saveLog` call:
`fs` maps existing paths to their `statSync(..).size`; `statThrows` models a
synchronous exception from `existsSync`/`statSync` during the part scan
(caught by `saveLog`'s `try`); `writeErr` is the error value delivered to the
asynchronous `fs.writeFile` callback, if any. -/
structure SaveEnv where
  fs : List (String × Nat)
  statThrows : Bool
  writeErr : Option String
  deriving DecidableEq

/-- Host inputs of one `finishExecution` call: `Date.now()`, the ISO
timestamp, and the content of the executed file on disk (`none` when
`fs.existsSync` is false). -/
structure FinishCtx where
  now : Nat
  ts : String
  fileContent : Option String
  deriving DecidableEq

/-- `fs.existsSync` + `fs.statSync(..).size` combined: the size of the file
at `p`, or `none` when it does not exist. -/
def fsSize (fs : List (String × Nat)) (p : String) : Option Nat :=
  match fs.find? (fun e => e.1 == p) with
  | some e => some e.2
  | none => none

/-! ### Operations of the `Logger` class -/

/-- The `Logger` constructor state (`logFile` and `currentDocument` start
empty, all logs empty, not saving, no execution). -/
def initialLogger (logFolder sessionId studentId : String) : LoggerState :=
  { logFolder := logFolder, sessionId := sessionId, studentId := studentId,
    currentDocument := "", logFile := "", editLog := [], errorLog := [],
    executionLog := [], isSaving := false, currentExecution := none }

/-- The `logData` object built inside `saveLog`. -/
def logDataOf (s : LoggerState) : LogData :=
  { studentId := s.studentId, sessionId := s.sessionId,
    fileName := s.currentDocument, editLog := s.editLog,
    errorLog := s.errorLog, executionLog := s.executionLog }

/-- The candidate path for part `partNumber`:
`path.join(dirname, basename_part{N}ext)` as computed in `saveLog`. -/
def partPath (logFile : String) (partNumber : Nat) : String :=
  let ext := extname logFile
  let baseName := pathBasenameExt logFile ext
  let dirName := dirname logFile
  pathJoin dirName (baseName ++ "_part" ++ toString partNumber ++ ext)

/-- The `while` condition of `saveLog`'s part scan: part `n` exists and its
size strictly exceeds `1024 * 1024` bytes. -/
def partFull (fs : List (String × Nat)) (logFile : String) (n : Nat) : Bool :=
  match fsSize fs (partPath logFile n) with
  | none => false
  | some sz => decide (1024 * 1024 < sz)

/-- The part-scan loop of `saveLog`, with explicit fuel (the source loop runs
until it finds a non-full part; `selectPart` supplies sufficient fuel for any
filesystem that has a non-full part in range). -/
def selectPartAux (fs : List (String × Nat)) (logFile : String) : Nat → Nat → Nat
  | 0, n => n
  | fuel + 1, n =>
    if partFull fs logFile n then selectPartAux fs logFile fuel (n + 1) else n

/-- The part number `saveLog` writes to: the scan starts at 1. -/
def selectPart (env : SaveEnv) (logFile : String) : Nat :=
  selectPartAux env.fs logFile (env.fs.length + 1) 1

/-- The body of `saveLog`'s `try` block: the part scan (which can raise, via
`statThrows`) followed by the asynchronous write whose callback logs any
error. -/
def writeAttempt (env : SaveEnv) (logFile : String) (data : LogData) :
    Except String Effect :=
  if env.statThrows then Except.error "stat failed"
  else
    let p := partPath logFile (selectPart env logFile)
    match env.writeErr with
    | none => Except.ok (Effect.wrote p data)
    | some e => Except.ok (Effect.writeFailed p e)

/-- `Logger.saveLog`: early-out when no log file is set or a save is already
in flight; otherwise sets `isSaving`, serializes the full snapshot, attempts
the write (any exception is caught: an `Except.error` becomes the logged
`Effect.caughtError`, never a thrown error), and clears `isSaving` in the
`finally` block. -/
def saveLog (env : SaveEnv) (s : LoggerState) : LoggerState × List Effect :=
  if s.logFile = "" ∨ s.isSaving = true then (s, [])
  else
    let s1 : LoggerState := { s with isSaving := true }
    let effs :=
      match writeAttempt env s1.logFile (logDataOf s1) with
      | Except.ok e => [e]
      | Except.error _ => [Effect.caughtError]
    ({ s1 with isSaving := false }, effs)

/-- `Logger.shouldIgnoreDocument`. -/
def shouldIgnoreDocument (s : LoggerState) (doc : Document) : Bool :=
  let fileName := doc.fileName
  let isLogFile :=
    strIncludes fileName ".logs" ||
      (strEndsWith fileName ".json" &&
        (strIncludes fileName ("_" ++ s.sessionId ++ ".json") ||
          strIncludes fileName (s.studentId ++ "_")))
  let isOutputOrTerminal :=
    doc.scheme == "output" || doc.scheme == "terminal" ||
      strIncludes fileName "extension-output" ||
      strIncludes fileName "Python Execution Log"
  isLogFile || isOutputOrTerminal

/-- `Logger.onDocumentChange`: on a non-ignored document whose file name
differs from `currentDocument`, retarget `logFile` and flush immediately.
`wsFolder` is the workspace folder containing the document, if any. -/
def onDocumentChange (env : SaveEnv) (wsFolder : Option String) (doc : Document)
    (s : LoggerState) : LoggerState × List Effect :=
  if shouldIgnoreDocument s doc then (s, [])
  else if s.currentDocument ≠ doc.fileName then
    let folderPath :=
      match wsFolder with
      | some ws => pathJoin ws ".logs"
      | none => s.logFolder
    let logFile :=
      pathJoin folderPath
        (s.studentId ++ "_" ++ pathBasename doc.fileName ++ "_" ++ s.sessionId ++ ".json")
    saveLog env { s with currentDocument := doc.fileName, logFile := logFile }
  else (s, [])

/-- `Logger.logEdit`: append an edit record and schedule a save. -/
def logEdit (ts : String) (edit : ContentChange) (doc : Document)
    (s : LoggerState) : LoggerState × List Effect :=
  let operation : String :=
    if edit.text = "" then "delete"
    else if 0 < edit.rangeLength ∧ edit.text ≠ "" then "replace"
    else "insert"
  ({ s with editLog := s.editLog ++
      [EditLogEntry.edit ts edit.range edit.text operation
        (doc.lineAt edit.range.start.line)] },
   [Effect.scheduleSave])

/-- `Logger.logKeyInput`: no-op without an active cursor position; otherwise
append a key record and schedule a save only when the edit log length is a
multiple of 10. -/
def logKeyInput (ts : String) (key : String) (activePos : Option Pos)
    (doc : Document) (s : LoggerState) : LoggerState × List Effect :=
  match activePos with
  | none => (s, [])
  | some position =>
    let keyInfo := EditLogEntry.key ts key position (doc.lineAt position.line)
    let editLog := s.editLog ++ [keyInfo]
    ({ s with editLog := editLog },
     if editLog.length % 10 = 0 then [Effect.scheduleSave] else [])

/-- `Logger.logPythonError`: split the message on newlines; with more than
one line the first line is `message` and the rest rejoined is `stack`, else
`stack` is null; `code` snapshots the executed file (empty when missing). -/
def logPythonError (ts : String) (fileContent : Option String)
    (_filePath : String) (errorMessage : String)
    (errorLog : List ErrorLogEntry) : List ErrorLogEntry :=
  let errorLines := jsSplitNl errorMessage
  if 1 < errorLines.length then
    errorLog ++
      [{ timestamp := ts, message := errorLines.headD "",
         stack := some (joinNl errorLines.tail),
         code := some (fileContent.getD ""),
         event := some "python_execution_error", language := some "python" }]
  else
    errorLog ++
      [{ timestamp := ts, message := errorMessage, stack := none,
         code := some (fileContent.getD ""),
         event := some "python_execution_error", language := some "python" }]

/-- `Logger.finishExecution`: no-op when no execution is current; otherwise
emit the `execution_end` record, derive an error record when the exit code is
non-zero or any error text is present, clear `currentExecution`, and schedule
a save. -/
def finishExecution (ctx : FinishCtx) (exitCode : Int)
    (errorMessage : Option String) (s : LoggerState) : LoggerState × List Effect :=
  match s.currentExecution with
  | none => (s, [])
  | some ce =>
    let executionInfo : ExecutionLogEntry :=
      { timestamp := ctx.ts, event := "execution_end", file := ce.file,
        language := "python", output := some ce.output,
        error := jsOrSO ce.error errorMessage,
        exitCode := some exitCode, duration := some (ctx.now - ce.startTime) }
    let newErrorLog :=
      if exitCode ≠ 0 ∨ ce.error ≠ "" ∨ strTruthy errorMessage = true then
        logPythonError ctx.ts ctx.fileContent ce.file
          (jsOr ce.error (jsOr (errorMessage.getD "") "Unknown error")) s.errorLog
      else s.errorLog
    ({ s with executionLog := s.executionLog ++ [executionInfo],
              errorLog := newErrorLog,
              currentExecution := none },
     [Effect.scheduleSave])

/-- `Logger.startPythonExecution`: kill and finish (`Aborted by new
execution`, exit code 1) any current execution, install the fresh one, run
`onDocumentChange` when the host finds a matching open document, append the
`execution_start` record and schedule a save. -/
def startPythonExecution (ctx : FinishCtx) (startNow : Nat) (startTs : String)
    (env : SaveEnv) (wsFolder : Option String) (foundDoc : Option Document)
    (filePath : String) (s : LoggerState) : LoggerState × List Effect :=
  let abortRun :=
    match s.currentExecution with
    | some ce =>
      let killEff := if ce.hasProcess then [Effect.killProcess] else []
      let fin := finishExecution ctx 1 (some "Aborted by new execution") s
      (fin.1, killEff ++ fin.2)
    | none => (s, ([] : List Effect))
  let freshExecution : CurrentExecution :=
    { startTime := startNow, file := filePath, hasProcess := false,
      output := "", error := "" }
  let sB : LoggerState := { abortRun.1 with currentExecution := some freshExecution }
  let docStep :=
    match foundDoc with
    | some doc => onDocumentChange env wsFolder doc sB
    | none => (sB, ([] : List Effect))
  let executionInfo : ExecutionLogEntry :=
    { timestamp := startTs, event := "execution_start", file := filePath,
      language := "python" }
  ({ docStep.1 with executionLog := docStep.1.executionLog ++ [executionInfo] },
   abortRun.2 ++ docStep.2 ++ [Effect.scheduleSave])

/-- The `data` listener `setPythonProcess` attaches to `process.stdout`. -/
def stdoutDataHandler (chunk : String) (s : LoggerState) : LoggerState :=
  match s.currentExecution with
  | some ce => { s with currentExecution := some ({ ce with output := ce.output ++ chunk }) }
  | none => s

/-- The `data` listener `setPythonProcess` attaches to `process.stderr`. -/
def stderrDataHandler (chunk : String) (s : LoggerState) : LoggerState :=
  match s.currentExecution with
  | some ce => { s with currentExecution := some ({ ce with error := ce.error ++ chunk }) }
  | none => s

/-- The `exit` listener of `setPythonProcess`:
`finishExecution(code || 0)` with a possibly-null exit code. -/
def processExitHandler (ctx : FinishCtx) (code : Option Int)
    (s : LoggerState) : LoggerState × List Effect :=
  finishExecution ctx
    (match code with
     | none => (0 : Int)
     | some c => if c = 0 then 0 else c)
    none s

/-- The `error` listener of `setPythonProcess`: append the message to the
error accumulator, then `finishExecution(1, err.message)`. -/
def processErrorHandler (ctx : FinishCtx) (errMessage : String)
    (s : LoggerState) : LoggerState × List Effect :=
  finishExecution ctx 1 (some errMessage) (stderrDataHandler errMessage s)

/-! ### The `onDidChangeTextDocument` handler of `activate` -/

/-- The per-change dispatch of the `onDidChangeTextDocument` handler. -/
def dispatchChange (ts : String) (activePos : Option Pos) (doc : Document)
    (change : ContentChange) (s : LoggerState) : LoggerState × List Effect :=
  if 1 ≤ change.text.length ∧ 0 < change.rangeLength then
    logEdit ts change doc s
  else if change.text.length = 1 ∧ change.rangeLength = 0 then
    logKeyInput ts change.text activePos doc s
  else if change.text = "" ∧ change.rangeLength = 1 then
    logKeyInput ts "Delete" activePos doc s
  else if change.text = "\n" ∨ change.text = "\r\n" then
    logKeyInput ts "Enter" activePos doc s
  else (s, [])

/-- The full `onDidChangeTextDocument` handler: guard, `onDocumentChange`,
then dispatch every content change in order. -/
def handleTextDocumentChange (env : SaveEnv) (wsFolder : Option String)
    (ts : String) (activePos : Option Pos) (doc : Document)
    (changes : List ContentChange) (s : LoggerState) : LoggerState × List Effect :=
  if doc.languageId ≠ "python" ∨ shouldIgnoreDocument s doc = true then (s, [])
  else
    changes.foldl
      (fun acc change =>
        let r := dispatchChange ts activePos doc change acc.1
        (r.1, acc.2 ++ r.2))
      (onDocumentChange env wsFolder doc s)

/-- Repeated single-character keystrokes: iterate `logKeyInput` and count the
saves scheduled by the every-10th-append rule. -/
def typeKeys (ts : String) (pos : Pos) (doc : Document) (keys : List String)
    (s : LoggerState) : LoggerState × Nat :=
  match keys with
  | [] => (s, 0)
  | k :: rest =>
    let step := logKeyInput ts k (some pos) doc s
    let restRun := typeKeys ts pos doc rest step.1
    (restRun.1, step.2.length + restRun.2)

/-- How many of the lengths `start+1, …, start+n` are multiples of 10. -/
def scheduledCount (start n : Nat) : Nat :=
  match n with
  | 0 => 0
  | m + 1 =>
    (if (start + 1) % 10 = 0 then 1 else 0) + scheduledCount (start + 1) m

/-! ### Helper lemmas -/

@[simp]
theorem logDataOf_setSaving (s : LoggerState) (b : Bool) :
    logDataOf { s with isSaving := b } = logDataOf s := rfl

/-- `saveLog` never changes the in-memory logger state: the early-outs leave
it untouched, and the main path only round-trips the `isSaving` flag. -/
theorem saveLog_state (env : SaveEnv) (s : LoggerState) :
    (saveLog env s).1 = s := by
  unfold saveLog
  split
  · rfl
  · next hc =>
    have hsv : s.isSaving = false := by
      cases hb : s.isSaving
      · rfl
      · exact absurd (Or.inr hb) hc
    cases s
    simp_all

/-- With no failure injected, `saveLog` on a targeted, not-currently-saving
state emits exactly one successful write of the full snapshot. -/
theorem saveLog_ok_effects (env : SaveEnv) (s : LoggerState)
    (hlf : s.logFile ≠ "") (hsv : s.isSaving = false)
    (hst : env.statThrows = false) (hwe : env.writeErr = none) :
    (saveLog env s).2 =
      [Effect.wrote (partPath s.logFile (selectPart env s.logFile)) (logDataOf s)] := by
  unfold saveLog
  rw [if_neg]
  · simp [writeAttempt, hst, hwe]
  · rintro (h1 | h2)
    · exact hlf h1
    · rw [hsv] at h2
      exact Bool.noConfusion h2

/-- `onDocumentChange` never touches the record lists or the execution
state; it only retargets `currentDocument`/`logFile` and flushes. -/
theorem onDocumentChange_logs (env : SaveEnv) (wsFolder : Option String)
    (doc : Document) (s : LoggerState) :
    (onDocumentChange env wsFolder doc s).1.editLog = s.editLog ∧
    (onDocumentChange env wsFolder doc s).1.errorLog = s.errorLog ∧
    (onDocumentChange env wsFolder doc s).1.executionLog = s.executionLog ∧
    (onDocumentChange env wsFolder doc s).1.currentExecution = s.currentExecution := by
  unfold onDocumentChange
  split
  · exact ⟨rfl, rfl, rfl, rfl⟩
  · split
    · rw [saveLog_state]
      exact ⟨rfl, rfl, rfl, rfl⟩
    · exact ⟨rfl, rfl, rfl, rfl⟩

theorem string_data_append (s t : String) : (s ++ t).data = s.data ++ t.data := by
  cases s
  cases t
  rfl

theorem pathJoin_ne_empty (a b : String) : pathJoin a b ≠ "" := by
  intro h
  have hdata : (pathJoin a b).data = ("" : String).data := by rw [h]
  unfold pathJoin at hdata
  rw [string_data_append, string_data_append] at hdata
  simp at hdata

/-- The part scan returns the least part number `≥ start` that is not full,
provided a non-full part exists within the available fuel. -/
theorem selectPartAux_least (fs : List (String × Nat)) (lf : String) :
    ∀ fuel n, (∃ k, k < fuel ∧ partFull fs lf (n + k) = false) →
      partFull fs lf (selectPartAux fs lf fuel n) = false ∧
      n ≤ selectPartAux fs lf fuel n ∧
      ∀ m, n ≤ m → m < selectPartAux fs lf fuel n → partFull fs lf m = true := by
  intro fuel
  induction fuel with
  | zero =>
    intro n hex
    obtain ⟨k, hk, _⟩ := hex
    omega
  | succ fuel ih =>
    intro n hex
    obtain ⟨k, hk, hkf⟩ := hex
    cases hpf : partFull fs lf n with
    | false =>
      have hsel : selectPartAux fs lf (fuel + 1) n = n := by
        simp [selectPartAux, hpf]
      rw [hsel]
      exact ⟨hpf, Nat.le_refl n,
        fun m h1 h2 => absurd (Nat.lt_of_le_of_lt h1 h2) (Nat.lt_irrefl n)⟩
    | true =>
      have hk0 : k ≠ 0 := by
        intro h0
        subst h0
        rw [Nat.add_zero, hpf] at hkf
        exact Bool.noConfusion hkf
      obtain ⟨k2, rfl⟩ := Nat.exists_eq_succ_of_ne_zero hk0
      have hex2 : ∃ j, j < fuel ∧ partFull fs lf (n + 1 + j) = false := by
        refine ⟨k2, by omega, ?_⟩
        have harith : n + 1 + k2 = n + (k2 + 1) := by omega
        rw [harith]
        exact hkf
      have hres := ih (n + 1) hex2
      have hsel : selectPartAux fs lf (fuel + 1) n = selectPartAux fs lf fuel (n + 1) := by
        simp [selectPartAux, hpf]
      rw [hsel]
      refine ⟨hres.1, Nat.le_trans (Nat.le_succ n) hres.2.1, ?_⟩
      intro m h1 h2
      rcases Nat.lt_or_ge m (n + 1) with hlt | hge
      · have hm : m = n := by omega
        rw [hm]
        exact hpf
      · exact hres.2.2 m hge h2

/-! ### Claim C4: flush request while aflush is in flight -/

def loggerC4 : LoggerState :=
  { initialLogger "/w/.logs" "sessC4" "stu4" with
    currentDocument := "/w/main.py",
    logFile := "/w/.logs/stu4_main.py_sessC4.json",
    editLog := [EditLogEntry.key "t1" "a" ⟨0, 0⟩ "a"],
    isSaving := true }

def envOkC4 : SaveEnv := { fs := [], statThrows := false, writeErr := none }

/-- C4 counterexample: on a state whose `isSaving` flag is set — even with a
valid target and buffered records, and an environment in which a write would
succeed — `saveLog` performs no write and leaves the state bit-for-bit
unchanged: nothing is queued and nothing is later performed, the request is
simply dropped (clearing the flag makes the very same call write), refuting
the claim that such a request is queued rather than lost. -/
theorem saveLog_inflight_cex :
    saveLog envOkC4 loggerC4 = (loggerC4, []) ∧
    (saveLog envOkC4 ({ loggerC4 with isSaving := false })).2 ≠ [] := by
  constructor
  · decide
  · decide

/-- C4 (amended): a flush request arriving while the store's `isSaving` flag
is set is treated as a no-op and dropped — not queued — leaving state and
effects empty; persistence of the buffered records relies on a later flush. -/
theorem saveLog_inflight_dropped (env : SaveEnv) (s : LoggerState)
    (h : s.isSaving = true) : saveLog env s = (s, []) := by
  unfold saveLog
  rw [if_pos (Or.inr h)]

theorem saveLog_inflight_dropped_w :
    loggerC4.isSaving = true ∧ saveLog envOkC4 loggerC4 = (loggerC4, []) :=
  ⟨by decide, saveLog_inflight_dropped envOkC4 loggerC4 (by decide)⟩

/-! ### Claim C10: flush before any log-file target is set -/

def loggerC10 : LoggerState :=
  { initialLogger "/tmp/.logs" "sessC10" "stu10" with
    editLog := [EditLogEntry.key "t1" "x" ⟨0, 0⟩ "x"] }

def envOkC10 : SaveEnv := { fs := [], statThrows := false, writeErr := none }

def docC10 : Document :=
  { fileName := "/w/main.py", scheme := "file", languageId := "python",
    lineAt := fun _ => "" }

/-- C10: every flush before a log-file target is set (`logFile = ""`, as at
construction) is a no-op — nothing is written and the state, including all
buffered records, is unchanged — and the first flush after `onDocumentChange`
sets a target writes a snapshot containing exactly those retained records. -/
theorem saveLog_no_target_noop (env env2 : SaveEnv) (wsFolder : Option String)
    (doc : Document) (s : LoggerState)
    (hlf : s.logFile = "") (hsv : s.isSaving = false)
    (hig : shouldIgnoreDocument s doc = false)
    (hdoc : s.currentDocument ≠ doc.fileName)
    (hok1 : env2.statThrows = false) (hok2 : env2.writeErr = none) :
    saveLog env s = (s, []) ∧
    ∃ p d, (onDocumentChange env2 wsFolder doc s).2 = [Effect.wrote p d] ∧
      d.editLog = s.editLog ∧ d.errorLog = s.errorLog ∧
      d.executionLog = s.executionLog := by
  constructor
  · unfold saveLog
    rw [if_pos (Or.inl hlf)]
  · have h1 : ¬ (shouldIgnoreDocument s doc = true) := by
      rw [hig]
      exact fun h => Bool.noConfusion h
    unfold onDocumentChange
    rw [if_neg h1, if_pos hdoc]
    refine ⟨_, _, saveLog_ok_effects env2 _ ?_ ?_ hok1 hok2, rfl, rfl, rfl⟩
    · exact pathJoin_ne_empty _ _
    · exact hsv

theorem saveLog_no_target_noop_w :
    (loggerC10.logFile = "" ∧ loggerC10.editLog ≠ [] ∧
     shouldIgnoreDocument loggerC10 docC10 = false) ∧
    (saveLog envOkC10 loggerC10 = (loggerC10, []) ∧
     ∃ p d, (onDocumentChange envOkC10 (some "/w") docC10 loggerC10).2 =
         [Effect.wrote p d] ∧
       d.editLog = loggerC10.editLog ∧ d.errorLog = loggerC10.errorLog ∧
       d.executionLog = loggerC10.executionLog) :=
  ⟨⟨by decide, by decide, by decide⟩,
   saveLog_no_target_noop envOkC10 envOkC10 (some "/w") docC10 loggerC10
     (by decide) (by decide) (by decide) (by decide) (by decide) (by decide)⟩

/-! ### Claim C7: write failures during a flush -/

def loggerC7 : LoggerState :=
  { initialLogger "/w/.logs" "sessC7" "stu7" with
    currentDocument := "/w/m.py",
    logFile := "/w/.logs/stu7_m.py_sessC7.json",
    editLog := [EditLogEntry.key "t1" "z" ⟨0, 0⟩ "z"],
    errorLog := [{ timestamp := "t2", message := "boom", stack := none }] }

def envFailC7 : SaveEnv := { fs := [], statThrows := false, writeErr := some "EACCES" }

def envOkC7 : SaveEnv := { fs := [], statThrows := false, writeErr := none }

/-- C7: a flush hit by a write failure never throws to its caller (a
synchronous exception is caught into a logged `caughtError` effect, an
asynchronous write error is reported through the callback as `writeFailed`),
the entire in-memory state is identical before and after, and the next
non-failing flush serializes the full current snapshot. -/
theorem saveLog_write_failure_safe (env env2 : SaveEnv) (s : LoggerState)
    (hlf : s.logFile ≠ "") (hsv : s.isSaving = false)
    (_hfail : env.statThrows = true ∨ env.writeErr ≠ none)
    (hok1 : env2.statThrows = false) (hok2 : env2.writeErr = none) :
    (saveLog env s).1 = s ∧
    (env.statThrows = true → (saveLog env s).2 = [Effect.caughtError]) ∧
    (∀ msg, env.statThrows = false → env.writeErr = some msg →
      (saveLog env s).2 =
        [Effect.writeFailed (partPath s.logFile (selectPart env s.logFile)) msg]) ∧
    (saveLog env2 s).2 =
      [Effect.wrote (partPath s.logFile (selectPart env2 s.logFile)) (logDataOf s)] := by
  have hcond : ¬ (s.logFile = "" ∨ s.isSaving = true) := by
    rintro (h1 | h2)
    · exact hlf h1
    · rw [hsv] at h2
      exact Bool.noConfusion h2
  refine ⟨saveLog_state env s, ?_, ?_, saveLog_ok_effects env2 s hlf hsv hok1 hok2⟩
  · intro hst
    unfold saveLog
    rw [if_neg hcond]
    simp [writeAttempt, hst]
  · intro msg hst hwe
    unfold saveLog
    rw [if_neg hcond]
    simp [writeAttempt, hst, hwe]

theorem saveLog_write_failure_safe_w :
    (loggerC7.logFile ≠ "" ∧ envFailC7.writeErr = some "EACCES") ∧
    ((saveLog envFailC7 loggerC7).1 = loggerC7 ∧
     (envFailC7.statThrows = true → (saveLog envFailC7 loggerC7).2 = [Effect.caughtError]) ∧
     (∀ msg, envFailC7.statThrows = false → envFailC7.writeErr = some msg →
       (saveLog envFailC7 loggerC7).2 =
         [Effect.writeFailed
           (partPath loggerC7.logFile (selectPart envFailC7 loggerC7.logFile)) msg]) ∧
     (saveLog envOkC7 loggerC7).2 =
       [Effect.wrote
         (partPath loggerC7.logFile (selectPart envOkC7 loggerC7.logFile))
         (logDataOf loggerC7)]) :=
  ⟨⟨by decide, by decide⟩,
   saveLog_write_failure_safe envFailC7 envOkC7 loggerC7
     (by decide) (by decide) (Or.inr (by decide)) (by decide) (by decide)⟩

/-! ### Claim C1: log-file part selection -/

def lfC1 : String := "/w/.logs/stu1_a.py_sessC1.json"

def loggerC1 : LoggerState :=
  { initialLogger "/w/.logs" "sessC1" "stu1" with
    currentDocument := "/w/a.py", logFile := lfC1 }

def envC1cex : SaveEnv :=
  { fs := [(partPath lfC1 1, 1024 * 1024)], statThrows := false, writeErr := none }

def envC1w : SaveEnv :=
  { fs := [(partPath lfC1 1, 2000000)], statThrows := false, writeErr := none }

/-- C1 counterexample: with part 1 existing at exactly 1,048,576 bytes, the
flush writes to part 1 again — overwriting the exactly-at-threshold part —
instead of targeting part 2, because the scan only skips parts whose size is
strictly greater than `1024 * 1024`. -/
theorem saveLog_thresholdPart_cex :
    fsSize envC1cex.fs (partPath lfC1 1) = some (1024 * 1024) ∧
    (saveLog envC1cex loggerC1).2 =
      [Effect.wrote (partPath lfC1 1) (logDataOf loggerC1)] := by
  constructor
  · decide
  · decide

/-- C1 (amended): each flush scans part numbers upward from 1 and writes to
the first part that either does not exist or whose size is at most 1,048,576
bytes; every part skipped is strictly larger than 1,048,576 bytes. (A part
whose size is exactly the threshold is therefore reused, not superseded.) -/
theorem saveLog_selects_first_nonfull_part (env : SaveEnv) (s : LoggerState)
    (hlf : s.logFile ≠ "") (hsv : s.isSaving = false)
    (hst : env.statThrows = false) (hwe : env.writeErr = none)
    (hex : ∃ k, k < env.fs.length + 1 ∧ partFull env.fs s.logFile (1 + k) = false) :
    (saveLog env s).2 =
      [Effect.wrote (partPath s.logFile (selectPart env s.logFile)) (logDataOf s)] ∧
    partFull env.fs s.logFile (selectPart env s.logFile) = false ∧
    1 ≤ selectPart env s.logFile ∧
    ∀ m, 1 ≤ m → m < selectPart env s.logFile →
      partFull env.fs s.logFile m = true := by
  have hspec := selectPartAux_least env.fs s.logFile (env.fs.length + 1) 1 hex
  exact ⟨saveLog_ok_effects env s hlf hsv hst hwe, hspec.1, hspec.2.1, hspec.2.2⟩

theorem saveLog_selects_first_nonfull_part_w :
    (partFull envC1w.fs loggerC1.logFile 1 = true ∧
     partFull envC1w.fs loggerC1.logFile 2 = false ∧
     selectPart envC1w loggerC1.logFile = 2) ∧
    ((saveLog envC1w loggerC1).2 =
       [Effect.wrote (partPath loggerC1.logFile (selectPart envC1w loggerC1.logFile))
         (logDataOf loggerC1)] ∧
     partFull envC1w.fs loggerC1.logFile (selectPart envC1w loggerC1.logFile) = false ∧
     1 ≤ selectPart envC1w loggerC1.logFile ∧
     ∀ m, 1 ≤ m → m < selectPart envC1w loggerC1.logFile →
       partFull envC1w.fs loggerC1.logFile m = true) :=
  ⟨⟨by decide, by decide, by decide⟩,
   saveLog_selects_first_nonfull_part envC1w loggerC1
     (by decide) (by decide) (by decide) (by decide) ⟨1, by decide, by decide⟩⟩

/-! ### Execution-tracker helper lemmas -/

/-- With a current execution, `finishExecution` appends exactly the
`execution_end` record, clears `currentExecution`, and leaves the edit log
alone. -/
theorem finishExecution_some_fields (ctx : FinishCtx) (ec : Int)
    (em : Option String) (s : LoggerState) (ce : CurrentExecution)
    (h : s.currentExecution = some ce) :
    (finishExecution ctx ec em s).1.executionLog =
      s.executionLog ++
        [{ timestamp := ctx.ts, event := "execution_end", file := ce.file,
           language := "python", output := some ce.output,
           error := jsOrSO ce.error em, exitCode := some ec,
           duration := some (ctx.now - ce.startTime) }] ∧
    (finishExecution ctx ec em s).1.currentExecution = none ∧
    (finishExecution ctx ec em s).1.editLog = s.editLog := by
  simp [finishExecution, h]

/-- Without a current execution, `finishExecution` is a complete no-op. -/
theorem finishExecution_none (ctx : FinishCtx) (ec : Int) (em : Option String)
    (s : LoggerState) (h : s.currentExecution = none) :
    finishExecution ctx ec em s = (s, []) := by
  simp only [finishExecution, h]

/-! ### Claim C6: `finishExecution` is idempotent -/

def ceC6 : CurrentExecution :=
  { startTime := 3, file := "/w/r.py", hasProcess := true, output := "ok", error := "" }

def loggerC6 : LoggerState :=
  { initialLogger "/w/.logs" "sessC6" "stu6" with currentExecution := some ceC6 }

def ctxC6 : FinishCtx := { now := 10, ts := "T6", fileContent := some "print(1)" }

/-- C6: on a state with an in-flight execution, `finishExecution` appends
exactly one `execution_end` record and clears the execution; invoking it
again (with any exit code or message, as when both an `exit` and an `error`
signal arrive) returns the state unchanged with no effects. -/
theorem finishExecution_idem (ctx ctx2 : FinishCtx) (ec ec2 : Int)
    (em em2 : Option String) (s : LoggerState) (ce : CurrentExecution)
    (h : s.currentExecution = some ce) :
    (∃ e : ExecutionLogEntry, e.event = "execution_end" ∧
      (finishExecution ctx ec em s).1.executionLog = s.executionLog ++ [e]) ∧
    (finishExecution ctx ec em s).1.currentExecution = none ∧
    finishExecution ctx2 ec2 em2 (finishExecution ctx ec em s).1 =
      ((finishExecution ctx ec em s).1, []) := by
  have hf := finishExecution_some_fields ctx ec em s ce h
  exact ⟨⟨_, rfl, hf.1⟩, hf.2.1, finishExecution_none ctx2 ec2 em2 _ hf.2.1⟩

theorem finishExecution_idem_w :
    loggerC6.currentExecution = some ceC6 ∧
    ((∃ e : ExecutionLogEntry, e.event = "execution_end" ∧
        (finishExecution ctxC6 0 none loggerC6).1.executionLog =
          loggerC6.executionLog ++ [e]) ∧
     (finishExecution ctxC6 0 none loggerC6).1.currentExecution = none ∧
     finishExecution ctxC6 0 none (finishExecution ctxC6 0 none loggerC6).1 =
       ((finishExecution ctxC6 0 none loggerC6).1, [])) :=
  ⟨by decide, finishExecution_idem ctxC6 ctxC6 0 0 none none loggerC6 ceC6 (by decide)⟩

/-! ### Claim C9: `exit` with a null code and empty stderr -/

def ceC9 : CurrentExecution :=
  { startTime := 2, file := "/w/k.py", hasProcess := true, output := "hi", error := "" }

def loggerC9 : LoggerState :=
  { initialLogger "/w/.logs" "sessC9" "stu9" with currentExecution := some ceC9 }

def ctxC9 : FinishCtx := { now := 7, ts := "T9", fileContent := some "print(2)" }

/-- C9: an `exit` signal with a null code on a run with empty accumulated
stderr (and no accompanying error message, as the exit listener never passes
one) yields an `execution_end` record with exit code 0 and no error field,
and derives no error record: the run is recorded as successful. -/
theorem exit_null_code_success (ctx : FinishCtx) (s : LoggerState)
    (ce : CurrentExecution) (h : s.currentExecution = some ce)
    (he : ce.error = "") :
    (processExitHandler ctx none s).1.executionLog =
      s.executionLog ++
        [{ timestamp := ctx.ts, event := "execution_end", file := ce.file,
           language := "python", output := some ce.output, error := none,
           exitCode := some 0, duration := some (ctx.now - ce.startTime) }] ∧
    (processExitHandler ctx none s).1.errorLog = s.errorLog ∧
    (processExitHandler ctx none s).1.currentExecution = none := by
  unfold processExitHandler
  simp [finishExecution, h, he, jsOrSO, strTruthy]

theorem exit_null_code_success_w :
    (loggerC9.currentExecution = some ceC9 ∧ ceC9.error = "") ∧
    ((processExitHandler ctxC9 none loggerC9).1.executionLog =
       loggerC9.executionLog ++
         [{ timestamp := ctxC9.ts, event := "execution_end", file := ceC9.file,
            language := "python", output := some ceC9.output, error := none,
            exitCode := some 0, duration := some (ctxC9.now - ceC9.startTime) }] ∧
     (processExitHandler ctxC9 none loggerC9).1.errorLog = loggerC9.errorLog ∧
     (processExitHandler ctxC9 none loggerC9).1.currentExecution = none) :=
  ⟨⟨by decide, by decide⟩,
   exit_null_code_success ctxC9 loggerC9 ceC9 (by decide) (by decide)⟩

/-! ### Claim C2: superseding a running execution -/

def ceC2 : CurrentExecution :=
  { startTime := 0, file := "/w/m.py", hasProcess := true, output := "out",
    error := "Traceback: boom" }

def loggerC2 : LoggerState :=
  { initialLogger "/w/.logs" "sessC2" "stu2" with currentExecution := some ceC2 }

def ctxC2 : FinishCtx := { now := 5, ts := "T1", fileContent := none }

def envC2 : SaveEnv := { fs := [], statThrows := false, writeErr := none }

/-- C2 counterexample: superseding a `Running` execution whose accumulated
stderr is non-empty (`"Traceback: boom"`) appends exactly one
`execution_end` record, but that record's error field is the accumulated
stderr, not the reason `"Aborted by new execution"` — because
`finishExecution` computes `error: this.currentExecution.error ||
errorMessage` and non-empty stderr wins. This refutes the claim that the
record carries the abort reason regardless of accumulated error text. -/
theorem startPython_abortReason_cex :
    ((startPythonExecution ctxC2 5 "T2" envC2 none none "/w/m.py" loggerC2).1.executionLog.filter
        (fun e => e.event == "execution_end")).length = 1 ∧
    ((startPythonExecution ctxC2 5 "T2" envC2 none none "/w/m.py" loggerC2).1.executionLog.filter
        (fun e => e.event == "execution_end" &&
          e.error == some "Aborted by new execution")).length = 0 ∧
    ((startPythonExecution ctxC2 5 "T2" envC2 none none "/w/m.py" loggerC2).1.executionLog.filter
        (fun e => e.event == "execution_end" &&
          e.error == some "Traceback: boom")).length = 1 := by
  refine ⟨?_, ?_, ?_⟩
  · decide
  · decide
  · decide

/-- C2 (amended): starting a second run while one is `Running` appends to
the execution log exactly one `execution_end` record for the superseded run
(exit code 1) immediately followed by the new run's `execution_start`
record; the end record's error field is the abort reason
`"Aborted by new execution"` when the superseded run's accumulated error
text is empty, and the accumulated error text otherwise; the state then
holds the fresh `Running` execution. -/
theorem startPython_supersede_end_before_start (ctx : FinishCtx)
    (startNow : Nat) (startTs : String) (env : SaveEnv)
    (wsFolder : Option String) (foundDoc : Option Document)
    (filePath : String) (s : LoggerState) (ce : CurrentExecution)
    (h : s.currentExecution = some ce) :
    (startPythonExecution ctx startNow startTs env wsFolder foundDoc filePath s).1.executionLog =
      s.executionLog ++
        [{ timestamp := ctx.ts, event := "execution_end", file := ce.file,
           language := "python", output := some ce.output,
           error := if ce.error = "" then some "Aborted by new execution"
                    else some ce.error,
           exitCode := some 1, duration := some (ctx.now - ce.startTime) },
         { timestamp := startTs, event := "execution_start", file := filePath,
           language := "python" }] ∧
    (startPythonExecution ctx startNow startTs env wsFolder foundDoc filePath s).1.currentExecution =
      some ({ startTime := startNow, file := filePath, hasProcess := false,
              output := "", error := "" }) := by
  have hf := finishExecution_some_fields ctx 1 (some "Aborted by new execution") s ce h
  unfold startPythonExecution
  simp only [h]
  cases foundDoc with
  | none =>
    constructor
    · show (finishExecution ctx 1 (some "Aborted by new execution") s).1.executionLog ++ _ = _
      rw [hf.1]
      simp [jsOrSO]
    · rfl
  | some doc =>
    have hodc := onDocumentChange_logs env wsFolder doc
      ({ (finishExecution ctx 1 (some "Aborted by new execution") s).1 with
         currentExecution :=
           some ({ startTime := startNow, file := filePath, hasProcess := false,
                   output := "", error := "" }) })
    constructor
    · show (onDocumentChange env wsFolder doc _).1.executionLog ++ _ = _
      rw [hodc.2.2.1]
      show (finishExecution ctx 1 (some "Aborted by new execution") s).1.executionLog ++ _ = _
      rw [hf.1]
      simp [jsOrSO]
    · show (onDocumentChange env wsFolder doc _).1.currentExecution = _
      rw [hodc.2.2.2]

theorem startPython_supersede_end_before_start_w :
    loggerC2.currentExecution = some ceC2 ∧
    ((startPythonExecution ctxC2 5 "T2" envC2 none none "/w/m.py" loggerC2).1.executionLog =
       loggerC2.executionLog ++
         [{ timestamp := ctxC2.ts, event := "execution_end", file := ceC2.file,
            language := "python", output := some ceC2.output,
            error := if ceC2.error = "" then some "Aborted by new execution"
                     else some ceC2.error,
            exitCode := some 1, duration := some (ctxC2.now - ceC2.startTime) },
          { timestamp := "T2", event := "execution_start", file := "/w/m.py",
            language := "python" }] ∧
     (startPythonExecution ctxC2 5 "T2" envC2 none none "/w/m.py" loggerC2).1.currentExecution =
       some ({ startTime := 5, file := "/w/m.py", hasProcess := false,
               output := "", error := "" })) :=
  ⟨by decide,
   startPython_supersede_end_before_start ctxC2 5 "T2" envC2 none none
     "/w/m.py" loggerC2 ceC2 (by decide)⟩

/-! ### Claim C5: error-message splitting -/

/-- C5: for every non-empty error text, the derived error record splits on
newlines — more than one line: `message` is the first line and `stack` the
rest rejoined; a single line: `message` is the whole text and `stack` null —
with the two concrete examples from the specification. -/
theorem logPythonError_split_spec (ts : String) (fc : Option String)
    (fp err : String) (log : List ErrorLogEntry) (_h : err ≠ "") :
    (∃ e : ErrorLogEntry, logPythonError ts fc fp err log = log ++ [e] ∧
      (1 < (jsSplitNl err).length →
        e.message = (jsSplitNl err).headD "" ∧
        e.stack = some (joinNl (jsSplitNl err).tail)) ∧
      ((jsSplitNl err).length = 1 → e.message = err ∧ e.stack = none)) ∧
    logPythonError ts fc fp "SyntaxError: bad token\n  at line 3" log =
      log ++ [{ timestamp := ts, message := "SyntaxError: bad token",
                stack := some "  at line 3", code := some (fc.getD ""),
                event := some "python_execution_error",
                language := some "python" }] ∧
    logPythonError ts fc fp "boom" log =
      log ++ [{ timestamp := ts, message := "boom", stack := none,
                code := some (fc.getD ""),
                event := some "python_execution_error",
                language := some "python" }] := by
  refine ⟨?_, ?_, ?_⟩
  · unfold logPythonError
    by_cases hl : 1 < (jsSplitNl err).length
    · rw [if_pos hl]
      refine ⟨_, rfl, fun _ => ⟨rfl, rfl⟩, fun h1 => absurd h1 (by omega)⟩
    · rw [if_neg hl]
      exact ⟨_, rfl, fun hgt => absurd hgt hl, fun _ => ⟨rfl, rfl⟩⟩
  · unfold logPythonError
    rw [if_pos (by decide)]
    rfl
  · unfold logPythonError
    rw [if_neg (by decide)]

theorem logPythonError_split_spec_w :
    ("boom" : String) ≠ "" ∧
    ((∃ e : ErrorLogEntry,
        logPythonError "t" none "/w/f.py" "boom" [] = [] ++ [e] ∧
        (1 < (jsSplitNl "boom").length →
          e.message = (jsSplitNl "boom").headD "" ∧
          e.stack = some (joinNl (jsSplitNl "boom").tail)) ∧
        ((jsSplitNl "boom").length = 1 → e.message = "boom" ∧ e.stack = none)) ∧
     logPythonError "t" none "/w/f.py" "SyntaxError: bad token\n  at line 3" [] =
       [] ++ [{ timestamp := "t", message := "SyntaxError: bad token",
                stack := some "  at line 3",
                code := some ((none : Option String).getD ""),
                event := some "python_execution_error",
                language := some "python" }] ∧
     logPythonError "t" none "/w/f.py" "boom" [] =
       [] ++ [{ timestamp := "t", message := "boom", stack := none,
                code := some ((none : Option String).getD ""),
                event := some "python_execution_error",
                language := some "python" }]) :=
  ⟨by decide, logPythonError_split_spec "t" none "/w/f.py" "boom" [] (by decide)⟩

/-! ### Claim C3: twelve keystrokes and the every-10th-append rule -/

theorem logKeyInput_some_len (ts key : String) (pos : Pos) (doc : Document)
    (s : LoggerState) :
    (logKeyInput ts key (some pos) doc s).1.editLog.length = s.editLog.length + 1 := by
  simp [logKeyInput]

theorem typeKeys_len (ts : String) (pos : Pos) (doc : Document) :
    ∀ (keys : List String) (s : LoggerState),
      (typeKeys ts pos doc keys s).1.editLog.length =
        s.editLog.length + keys.length := by
  intro keys
  induction keys with
  | nil =>
    intro s
    simp [typeKeys]
  | cons k rest ih =>
    intro s
    show (typeKeys ts pos doc rest (logKeyInput ts k (some pos) doc s).1).1.editLog.length = _
    rw [ih, logKeyInput_some_len]
    simp
    omega

theorem typeKeys_count (ts : String) (pos : Pos) (doc : Document) :
    ∀ (keys : List String) (s : LoggerState),
      (typeKeys ts pos doc keys s).2 = scheduledCount s.editLog.length keys.length := by
  intro keys
  induction keys with
  | nil =>
    intro s
    simp [typeKeys, scheduledCount]
  | cons k rest ih =>
    intro s
    show (logKeyInput ts k (some pos) doc s).2.length +
        (typeKeys ts pos doc rest (logKeyInput ts k (some pos) doc s).1).2 = _
    rw [ih, logKeyInput_some_len]
    have hstep1 : (logKeyInput ts k (some pos) doc s).2.length =
        if (s.editLog.length + 1) % 10 = 0 then 1 else 0 := by
      by_cases hc : (s.editLog.length + 1) % 10 = 0
      · simp [logKeyInput, hc]
      · simp [logKeyInput, hc]
    rw [hstep1]
    simp [scheduledCount]

def docC3 : Document :=
  { fileName := "/w/t.py", scheme := "file", languageId := "python",
    lineAt := fun _ => "" }

def keysC3 : List String := List.replicate 12 "a"

def loggerC3 : LoggerState := initialLogger "/w/.logs" "sessC3" "stu3"

/-- C3 counterexample: typing 12 single characters into an empty edit log
appends 12 key records but schedules exactly **one** flush through the
every-10th-append rule (at keystroke 10) — not the claimed two. -/
theorem twelveKeystrokes_cex :
    (typeKeys "t" ⟨0, 0⟩ docC3 keysC3 loggerC3).1.editLog.length = 12 ∧
    (typeKeys "t" ⟨0, 0⟩ docC3 keysC3 loggerC3).2 = 1 ∧
    (typeKeys "t" ⟨0, 0⟩ docC3 keysC3 loggerC3).2 ≠ 2 := by
  refine ⟨?_, ?_, ?_⟩
  · decide
  · decide
  · decide

/-- C3 (amended): if a student types 12 single characters with no deletions
into an empty Python file, starting from an empty edit log, then 12 key
records are appended and exactly **1** flush is scheduled by the
every-10th-keystroke rule (at keystroke 10), in addition to any
debounce-triggered flush after typing stops. -/
theorem twelveKeystrokes_one_scheduled_flush (ts : String) (pos : Pos)
    (doc : Document) (keys : List String) (s : LoggerState)
    (hlen : keys.length = 12) (hempty : s.editLog = []) :
    (typeKeys ts pos doc keys s).1.editLog.length = 12 ∧
    (typeKeys ts pos doc keys s).2 = 1 := by
  constructor
  · rw [typeKeys_len]
    simp [hempty, hlen]
  · rw [typeKeys_count, hempty, hlen]
    decide

theorem twelveKeystrokes_one_scheduled_flush_w :
    (keysC3.length = 12 ∧ loggerC3.editLog = []) ∧
    ((typeKeys "t" ⟨0, 0⟩ docC3 keysC3 loggerC3).1.editLog.length = 12 ∧
     (typeKeys "t" ⟨0, 0⟩ docC3 keysC3 loggerC3).2 = 1) :=
  ⟨⟨by decide, by decide⟩,
   twelveKeystrokes_one_scheduled_flush "t" ⟨0, 0⟩ docC3 keysC3 loggerC3
     (by decide) (by decide)⟩

/-! ### Claim C8: multi-character insertions append no record -/

def docC8 : Document :=
  { fileName := "/w/p.py", scheme := "file", languageId := "python",
    lineAt := fun _ => "" }

def chC8 : ContentChange :=
  { range := ⟨⟨0, 0⟩, ⟨0, 0⟩⟩, rangeLength := 0, text := "print()" }

def loggerC8 : LoggerState :=
  { initialLogger "/w/.logs" "sessC8" "stu8" with
    editLog := [EditLogEntry.key "t" "a" ⟨0, 0⟩ "a"] }

def envC8 : SaveEnv := { fs := [], statThrows := false, writeErr := none }

/-- C8: a content change with an empty replaced range, at least two inserted
characters, and not exactly a newline (`"\n"`/`"\r\n"`) — a paste or
completion — falls through every branch of the change handler: no edit, key,
error or execution record is appended. -/
theorem changeHandler_paste_noop (env : SaveEnv) (wsFolder : Option String)
    (ts : String) (activePos : Option Pos) (doc : Document) (c : ContentChange)
    (s : LoggerState) (h0 : c.rangeLength = 0) (h2 : 2 ≤ c.text.length)
    (hn : c.text ≠ "\n") (hrn : c.text ≠ "\r\n") :
    (handleTextDocumentChange env wsFolder ts activePos doc [c] s).1.editLog = s.editLog ∧
    (handleTextDocumentChange env wsFolder ts activePos doc [c] s).1.errorLog = s.errorLog ∧
    (handleTextDocumentChange env wsFolder ts activePos doc [c] s).1.executionLog = s.executionLog := by
  have hne : c.text ≠ "" := by
    intro he
    rw [he] at h2
    exact absurd h2 (by decide)
  unfold handleTextDocumentChange
  split
  · exact ⟨rfl, rfl, rfl⟩
  · simp only [List.foldl]
    unfold dispatchChange
    have hc1 : ¬ (1 ≤ c.text.length ∧ 0 < c.rangeLength) := by
      rintro ⟨-, hlt⟩
      omega
    have hc2 : ¬ (c.text.length = 1 ∧ c.rangeLength = 0) := by
      rintro ⟨hl, -⟩
      omega
    have hc3 : ¬ (c.text = "" ∧ c.rangeLength = 1) := by
      rintro ⟨he, -⟩
      exact hne he
    have hc4 : ¬ (c.text = "\n" ∨ c.text = "\r\n") := by
      rintro (hh | hh)
      · exact hn hh
      · exact hrn hh
    rw [if_neg hc1, if_neg hc2, if_neg hc3, if_neg hc4]
    have hodc := onDocumentChange_logs env wsFolder doc s
    exact ⟨hodc.1, hodc.2.1, hodc.2.2.1⟩

theorem changeHandler_paste_noop_w :
    (chC8.rangeLength = 0 ∧ 2 ≤ chC8.text.length ∧
     chC8.text ≠ "\n" ∧ chC8.text ≠ "\r\n") ∧
    ((handleTextDocumentChange envC8 (some "/w") "t" (some ⟨0, 0⟩) docC8 [chC8] loggerC8).1.editLog =
       loggerC8.editLog ∧
     (handleTextDocumentChange envC8 (some "/w") "t" (some ⟨0, 0⟩) docC8 [chC8] loggerC8).1.errorLog =
       loggerC8.errorLog ∧
     (handleTextDocumentChange envC8 (some "/w") "t" (some ⟨0, 0⟩) docC8 [chC8] loggerC8).1.executionLog =
       loggerC8.executionLog) :=
  ⟨⟨by decide, by decide, by decide, by decide⟩,
   changeHandler_paste_noop envC8 (some "/w") "t" (some ⟨0, 0⟩) docC8 chC8 loggerC8
     (by decide) (by decide) (by decide) (by decide)⟩

end EditLogger

